import Mathlib

/-!
Shallow embedding of the `announce` package Receiver: the admission/dedup
pipeline (`announceCheck`, `handleAnnounce`, `Direct`), the shutdown protocol
(`Close`, `UncacheCid`), the background watcher's per-message processing
(`watchProcessMsg`), and the construction policy (`NewReceiver`).

Peer identifiers and CIDs are opaque values comparable by equality and
convertible to a canonical string form; we model both as their canonical
string form. External effects (pubsub reads, sender sends, channel selects,
topic close results) are passed in as explicit outcome parameters, so each
Go function becomes a pure state-transition function.
-/

/-- Peer identifier, modelled by its canonical textual form. -/
abbrev PeerID := String

/-- Content identifier, modelled by its canonical string form (`Cid.String()`). -/
abbrev CidT := String

/-- Canonical string form of a CID, mirroring Go's `cid.Cid.String()`. -/
def cidString (c : CidT) : String := c

/-- Canonical string form of a peer id, mirroring Go's `peer.ID.String()`. -/
def peerString (p : PeerID) : String := p

/-- Modelled from the spec: `peer.Decode` (external `go-libp2p` helper, not in
src/) parses a peer id from its canonical textual form; it fails on malformed
input. In this model the only malformed text is the empty string, and decoding
is the partial inverse of `peerString`. -/
def peerDecode (s : String) : Option PeerID :=
  if s == "" then none else some s

/-- Error values returned by receiver operations. `errClosed`, `ctxErr`,
`sourceNotAllowed` and `alreadySeenCid` mirror the named Go errors;
`wrappedTopicClose` mirrors `fmt.Errorf("failed to close pubsub topic: %w", err)`;
`external` stands for an injected error from an external collaborator
(sender send/close, topic close, subscribe, topic join). -/
inductive GoErr where
  | errClosed
  | ctxErr
  | sourceNotAllowed
  | alreadySeenCid
  | wrappedTopicClose (e : GoErr)
  | external (n : Nat)
deriving DecidableEq, Repr

/-- Modelled from the spec: a multiaddress (external `go-multiaddr`, not in
src/). §6 classifies each address by whether its first IP-family component is
a globally routable unicast address; a list entry may also be the nil
multiaddress. `tag` distinguishes concrete addresses. -/
inductive Multiaddr where
  | nilEntry
  | addr (isPublic : Bool) (tag : String)
deriving DecidableEq, Repr

/-- Whether an address entry survives the public-address filter: nil entries
pass through, otherwise the first IP component must be globally routable. -/
def maKeep : Multiaddr → Bool
  | .nilEntry => true
  | .addr isPublic _ => isPublic

/-- Modelled from the spec: `mautil.FilterPublic` (repository code outside
src/). §6: a pure function returning only those addresses whose first
IP-family component is a globally routable unicast address; nil entries are
preserved unchanged. -/
def FilterPublic (addrs : List Multiaddr) : List Multiaddr :=
  addrs.filter maKeep

/-- Modelled from the spec: the bounded LRU string set (repository code outside
src/). §4.5: fixed capacity, string keyed, most-recently-used first; keys are
unique at all rest points, so deleting a key removes its sole occurrence. -/
structure stringLRU where
  cap : Nat
  /-- Keys in recency order, most recently used first. -/
  elems : List String
deriving DecidableEq, Repr

/-- Modelled from the spec: fresh empty LRU set with the given capacity. -/
def newStringLRU (cap : Nat) : stringLRU := ⟨cap, []⟩

/-- Modelled from the spec: `update(key)` returns true if the key was already
present (promoting it to most-recently-used); otherwise inserts it, evicting
the least-recently-used key if at capacity, and returns false. -/
def stringLRU.update (l : stringLRU) (k : String) : Bool × stringLRU :=
  if l.elems.contains k then
    (true, ⟨l.cap, k :: l.elems.filter (· != k)⟩)
  else
    let es := k :: l.elems
    (false, ⟨l.cap, if l.cap < es.length then es.take l.cap else es⟩)

/-- Modelled from the spec: `remove(key)` deletes the key unconditionally,
a no-op when absent. -/
def stringLRU.remove (l : stringLRU) (k : String) : stringLRU :=
  ⟨l.cap, l.elems.filter (· != k)⟩

/-- Modelled from the spec: current number of entries. -/
def stringLRU.size (l : stringLRU) : Nat := l.elems.length

/-- Membership in the LRU set. -/
def stringLRU.memK (l : stringLRU) (k : String) : Bool := l.elems.contains k

/-- Capacity of the announce dedup cache (`announceCacheSize`). -/
def announceCacheSize : Nat := 64

/-- Announce carries the advertisement CID, the publisher peer id, and the
publisher's network addresses. -/
structure Announce where
  Cid : CidT
  PeerID : PeerID
  Addrs : List Multiaddr
deriving DecidableEq, Repr

/-- Mutable state of a `Receiver`, with Go's nilable handles modelled as
presence booleans and the mutex / channel-close states made explicit:
`lockHeld` is the `announceMutex` state, `doneClosed` whether `close(r.done)`
ran, `subPresent` whether `topicSub != nil`, `watchPresent` whether
`cancelWatch != nil`, `ownsTopic` whether `cancelPubsub != nil`, and
`senderPresent` whether `sender != nil`. -/
structure Receiver where
  allowPeer : Option (PeerID → Bool)
  filterIPs : Bool
  resend : Bool
  hostID : PeerID
  announceCache : stringLRU
  closed : Bool
  lockHeld : Bool
  doneClosed : Bool
  subPresent : Bool
  subCancelled : Bool
  watchPresent : Bool
  watchCancelled : Bool
  ownsTopic : Bool
  pubsubCancelled : Bool
  topicClosed : Bool
  senderPresent : Bool
  senderClosed : Bool

/-- Result of the `allowPeer` callback guard: a nil callback allows all peers. -/
def allows : Option (PeerID → Bool) → PeerID → Bool
  | none, _ => true
  | some f, p => f p

/-- Admission check: the peer-allow callback runs first, outside the state
lock; then, under the lock, the closed flag and the dedup set are consulted.
Returns `none` when the caller would block forever acquiring the already-held
mutex, otherwise the (error, updated state) pair. -/
def Receiver.announceCheck (r : Receiver) (amsg : Announce) :
    Option (Option GoErr × Receiver) :=
  if !(allows r.allowPeer amsg.PeerID) then
    some (some .sourceNotAllowed, r)
  else if r.lockHeld then
    none
  else if r.closed then
    some (some .errClosed, r)
  else if (r.announceCache.update (cidString amsg.Cid)).1 then
    some (some .alreadySeenCid,
      { r with announceCache := (r.announceCache.update (cidString amsg.Cid)).2 })
  else
    some (none,
      { r with announceCache := (r.announceCache.update (cidString amsg.Cid)).2 })

/-- Gossip message record after CBOR decode (`message.Message`): the announced
CID, the wire address entries each carrying its decode outcome (the codec is an
external collaborator; `none` marks an undecodable entry), and the `OrigPeer`
string, empty for first-hop messages. -/
structure Message where
  Cid : CidT
  Addrs : List (Option Multiaddr)
  OrigPeer : String
deriving DecidableEq, Repr

/-- Result of `m.GetAddrs()`: decode every wire address entry, failing if any
entry fails to decode. -/
def Message.getAddrs (m : Message) : Option (List Multiaddr) :=
  m.Addrs.mapM id

/-- Outgoing gossip message built by `republish`: the CID, the original
publisher in `OrigPeer`, and the addresses set via `SetAddrs`. -/
def republishMessage (amsg : Announce) : Message :=
  { Cid := amsg.Cid, Addrs := amsg.Addrs.map some, OrigPeer := peerString amsg.PeerID }

/-- Observability events recorded by the pipeline (Go log calls). -/
inductive LogEvent where
  | ignoredAnnouncement (reason : GoErr)
  | republishFailed (e : GoErr)
  | republished
deriving DecidableEq, Repr

/-- Resolution of the delivery `select` in `handleAnnounce`: the send to
`outChan` is accepted, or the `done` channel is found closed, or the caller's
context is found cancelled. -/
inductive DeliverOutcome where
  | sent
  | doneSignal
  | ctxDone
deriving DecidableEq, Repr

/-- Everything observable about one `handleAnnounce` call: its returned error,
the post state, what (if anything) was sent on `outChan`, what (if anything)
was republished over the sender, and the log events. -/
structure HandleOut where
  err : Option GoErr
  state : Receiver
  delivered : Option Announce
  republished : Option Message
  logs : List LogEvent

/-- The admission/dedup pipeline shared by `Direct` and the watcher. `sendErr`
is the injected outcome of `sender.Send` (consulted only when `resend` is
true), `deliver` resolves the delivery select. Returns `none` when the call
blocks forever on the state mutex. -/
def Receiver.handleAnnounce (r : Receiver) (amsg : Announce) (resend : Bool)
    (sendErr : Option GoErr) (deliver : DeliverOutcome) : Option HandleOut :=
  match r.announceCheck amsg with
  | none => none
  | some (some GoErr.errClosed, r1) =>
      some { err := some .errClosed, state := r1, delivered := none,
             republished := none, logs := [] }
  | some (some e, r1) =>
      some { err := none, state := r1, delivered := none,
             republished := none, logs := [.ignoredAnnouncement e] }
  | some (none, r1) =>
      let amsg1 := if r1.filterIPs then { amsg with Addrs := FilterPublic amsg.Addrs } else amsg
      let repub := if resend then some (republishMessage amsg1) else none
      let logs :=
        if resend then
          match sendErr with
          | some e => [LogEvent.republishFailed e]
          | none => [LogEvent.republished]
        else []
      match deliver with
      | .sent =>
          some { err := none, state := r1, delivered := some amsg1,
                 republished := repub, logs := logs }
      | .doneSignal =>
          some { err := some .errClosed, state := r1, delivered := none,
                 republished := repub, logs := logs }
      | .ctxDone =>
          some { err := some .ctxErr, state := r1, delivered := none,
                 republished := repub, logs := logs }

/-- Direct announce entry point: feeds the pipeline with the receiver's
configured `resend` flag. -/
def Receiver.Direct (r : Receiver) (nextCid : CidT) (peerID : PeerID)
    (addrs : List Multiaddr) (sendErr : Option GoErr) (deliver : DeliverOutcome) :
    Option HandleOut :=
  r.handleAnnounce { Cid := nextCid, PeerID := peerID, Addrs := addrs } r.resend sendErr deliver

/-- UncacheCid removes a CID from the announce cache under the state lock;
`none` when the call blocks forever on an already-held mutex. -/
def Receiver.UncacheCid (r : Receiver) (adCid : CidT) : Option Receiver :=
  if r.lockHeld then none
  else some { r with announceCache := r.announceCache.remove (cidString adCid) }

/-- Outcome of a `Close` call: either it returns (with an error and post
state), or it blocks forever acquiring the already-held state mutex. -/
inductive CloseOut where
  | blocked
  | ret (err : Option GoErr) (r : Receiver)

/-- Close, translated step by step from the source: acquire the mutex; if
already closed return nil (the source has no unlock on this path, so the mutex
stays held); otherwise mark closed, cancel the subscription if present, unlock,
close `done`, cancel the watcher scope if present, then close the topic and run
the pubsub cancellation when the topic is owned, else close the sender when one
exists. `topicCloseErr` and `senderCloseErr` inject the external close
outcomes. -/
def Receiver.Close (r : Receiver) (topicCloseErr senderCloseErr : Option GoErr) :
    CloseOut :=
  if r.lockHeld then .blocked
  else if r.closed then .ret none { r with lockHeld := true }
  else
    let r1 := { r with closed := true, subCancelled := r.subPresent || r.subCancelled, lockHeld := false }
    let r2 := { r1 with doneClosed := true }
    let r3 := if r2.watchPresent then { r2 with watchCancelled := true } else r2
    if r3.ownsTopic then
      .ret (topicCloseErr.map GoErr.wrappedTopicClose)
        { r3 with topicClosed := true, pubsubCancelled := true }
    else if r3.senderPresent then
      .ret senderCloseErr { r3 with senderClosed := true }
    else
      .ret none r3

/-- Returned error of a `CloseOut`, `none` when the call blocked. -/
def CloseOut.errOf : CloseOut → Option (Option GoErr)
  | .blocked => none
  | .ret e _ => some e

/-- Post state of a `CloseOut`, falling back to the given state when blocked. -/
def CloseOut.stateOr (c : CloseOut) (d : Receiver) : Receiver :=
  match c with
  | .blocked => d
  | .ret _ s => s

/-- A gossip message as seen by the watcher after the external transport and
codec steps, each field carrying its decode outcome: `fromPeer` is
`peer.IDFromBytes(msg.From)` and `body` is the CBOR decode of `msg.Data`. -/
structure WireMsg where
  fromPeer : Option PeerID
  body : Option Message
deriving DecidableEq, Repr

/-- What one watcher loop iteration does with a successfully read message. -/
inductive WatchStep where
  | skip
  | handled (amsg : Announce)
deriving DecidableEq, Repr

/-- Per-message processing of the watch loop, from the decode of `msg.From`
down to the construction of the `Announce` handed to `handleAnnounce` (always
with `resend = false`): skip on any decode failure; for a republished message
(`OrigPeer` non-empty) skip when the transport-level sender is this host,
otherwise the effective origin is the decoded `OrigPeer`; for a first-hop
message the effective origin is the transport-level sender. -/
def watchProcessMsg (hostID : PeerID) (msg : WireMsg) : WatchStep :=
  match msg.fromPeer with
  | none => .skip
  | some srcPeer =>
    match msg.body with
    | none => .skip
    | some m =>
      match (if m.Addrs.isEmpty then some [] else m.getAddrs) with
      | none => .skip
      | some addrs =>
        if m.OrigPeer != "" then
          if srcPeer = hostID then .skip
          else
            match peerDecode m.OrigPeer with
            | none => .skip
            | some origPeer => .handled { Cid := m.Cid, PeerID := origPeer, Addrs := addrs }
        else
          .handled { Cid := m.Cid, PeerID := srcPeer, Addrs := addrs }

/-- First operation of the watch loop body. -/
inductive WatchFirstAction where
  | nilDeref
  | readSub
deriving DecidableEq, Repr

/-- The watch loop opens with `r.topicSub.Next(ctx)` and has no nil guard on
the subscription handle: when the receiver holds no subscription this call
dereferences a nil pointer; otherwise it proceeds to the blocking read. -/
def Receiver.watchFirst (r : Receiver) : WatchFirstAction :=
  if r.subPresent then .readSub else .nilDeref

/-- Outcome of `NewReceiver`: the constructed receiver or the error returned,
whether the background watcher goroutine was started, whether the gossip topic
was created (and joined) by this constructor call, and whether the recorded
topic-scope cancellation was run before returning. -/
structure NROut where
  res : Option Receiver
  err : Option GoErr
  watcherStarted : Bool
  topicCreatedHere : Bool
  cancelPubsubRun : Bool

/-- NewReceiver's construction policy, with the external outcomes injected:
`makeTopicErr` for `gossiptopic.MakeTopic`, `subscribeErr` for
`pubsubTopic.Subscribe`, `senderErr` for `p2psender.New`. A topic is created
here only when no topic option was supplied, the host is non-nil and the topic
name is non-empty. On subscribe failure the just-created topic's cancellation
is run before returning; on sender failure the error is returned directly. With
no topic available, `resend` is forced off. The watcher is started whenever the
host is non-nil. -/
def NewReceiver (hostPresent : Bool) (hostID : PeerID) (topicName : String)
    (optsTopic : Bool) (optsAllowPeer : Option (PeerID → Bool))
    (optsFilterIPs optsResend : Bool)
    (makeTopicErr subscribeErr senderErr : Option GoErr) : NROut :=
  let createHere := !optsTopic && hostPresent && topicName != ""
  if createHere && makeTopicErr.isSome then
    { res := none, err := makeTopicErr, watcherStarted := false,
      topicCreatedHere := false, cancelPubsubRun := false }
  else
    let topicPresent := optsTopic || createHere
    if topicPresent && subscribeErr.isSome then
      { res := none, err := subscribeErr, watcherStarted := false,
        topicCreatedHere := createHere, cancelPubsubRun := createHere }
    else if topicPresent && senderErr.isSome then
      { res := none, err := senderErr, watcherStarted := false,
        topicCreatedHere := createHere, cancelPubsubRun := false }
    else
      let r : Receiver :=
        { allowPeer := optsAllowPeer, filterIPs := optsFilterIPs,
          resend := topicPresent && optsResend,
          hostID := if hostPresent then hostID else "",
          announceCache := newStringLRU announceCacheSize,
          closed := false, lockHeld := false, doneClosed := false,
          subPresent := topicPresent, subCancelled := false,
          watchPresent := hostPresent, watchCancelled := false,
          ownsTopic := createHere, pubsubCancelled := false, topicClosed := false,
          senderPresent := topicPresent, senderClosed := false }
      { res := some r, err := none, watcherStarted := hostPresent,
        topicCreatedHere := createHere, cancelPubsubRun := false }

/-- An announcement after the optional public-address filtering step. -/
def filteredAnnounce (filterIPs : Bool) (amsg : Announce) : Announce :=
  if filterIPs then { amsg with Addrs := FilterPublic amsg.Addrs } else amsg

/-- Any returned `handleAnnounce` error is nil, `ErrClosed`, or the context
error. -/
lemma handleAnnounce_err_classes (r : Receiver) (amsg : Announce) (resend : Bool)
    (sendErr : Option GoErr) (deliver : DeliverOutcome) (out : HandleOut)
    (h : r.handleAnnounce amsg resend sendErr deliver = some out) :
    out.err = none ∨ out.err = some GoErr.errClosed ∨ out.err = some GoErr.ctxErr := by
  unfold Receiver.handleAnnounce at h
  cases hac : r.announceCheck amsg with
  | none => rw [hac] at h; exact absurd h (by simp)
  | some p =>
    obtain ⟨e, r1⟩ := p
    rw [hac] at h
    cases e with
    | none => cases deliver <;> (injection h with h; subst h; simp)
    | some g => cases g <;> (injection h with h; subst h; simp)

/-- C4: for every input on which it returns, `handleAnnounce` — and therefore
`Direct` — returns nil, `ErrClosed`, or the caller's context error, and
nothing else: admission drops and republish failures never propagate as a
non-nil result. -/
theorem claim4_error_propagation (r : Receiver) (amsg : Announce) (resend : Bool)
    (sendErr : Option GoErr) (deliver : DeliverOutcome) (out outD : HandleOut)
    (h : r.handleAnnounce amsg resend sendErr deliver = some out)
    (hD : r.Direct amsg.Cid amsg.PeerID amsg.Addrs sendErr deliver = some outD) :
    (out.err = none ∨ out.err = some GoErr.errClosed ∨ out.err = some GoErr.ctxErr) ∧
    (outD.err = none ∨ outD.err = some GoErr.errClosed ∨ outD.err = some GoErr.ctxErr) := by
  refine ⟨handleAnnounce_err_classes r amsg resend sendErr deliver out h, ?_⟩
  exact handleAnnounce_err_classes r _ r.resend sendErr deliver outD hD

/-- Concrete receiver used by several witnesses: open, lock free, no
peer-allow callback, no filtering, resending off, empty dedup cache. -/
def rOpen : Receiver :=
  { allowPeer := none, filterIPs := false, resend := false, hostID := "hostA",
    announceCache := newStringLRU announceCacheSize,
    closed := false, lockHeld := false, doneClosed := false,
    subPresent := true, subCancelled := false,
    watchPresent := true, watchCancelled := false,
    ownsTopic := true, pubsubCancelled := false, topicClosed := false,
    senderPresent := true, senderClosed := false }

/-- State of `rOpen` after admitting the CID used by the C4 witness. -/
def r1W4 : Receiver := { rOpen with announceCache := ⟨announceCacheSize, ["cidW4"]⟩ }

/-- Output of the C4 witness `handleAnnounce` call (resend on, send failing). -/
def w4out : HandleOut :=
  { err := none, state := r1W4, delivered := some ⟨"cidW4", "peerW4", []⟩,
    republished := some { Cid := "cidW4", Addrs := [], OrigPeer := "peerW4" },
    logs := [LogEvent.republishFailed (GoErr.external 7)] }

/-- Output of the C4 witness `Direct` call (`rOpen.resend` is off). -/
def w4outD : HandleOut :=
  { err := none, state := r1W4, delivered := some ⟨"cidW4", "peerW4", []⟩,
    republished := none, logs := [] }

/-- C4 witness: the error-class property evaluated on a concrete announcement
(republish failing, receiver open). -/
theorem claim4_error_propagation_witness :
    rOpen.handleAnnounce ⟨"cidW4", "peerW4", []⟩ true (some (GoErr.external 7)) .sent = some w4out ∧
    rOpen.Direct "cidW4" "peerW4" [] (some (GoErr.external 7)) .sent = some w4outD ∧
    (w4out.err = none ∨ w4out.err = some GoErr.errClosed ∨ w4out.err = some GoErr.ctxErr) ∧
    (w4outD.err = none ∨ w4outD.err = some GoErr.errClosed ∨ w4outD.err = some GoErr.ctxErr) := by
  refine ⟨rfl, rfl, ?_⟩
  exact claim4_error_propagation rOpen ⟨"cidW4", "peerW4", []⟩ true
    (some (GoErr.external 7)) .sent w4out w4outD rfl rfl

/-- C10: when the configured peer-allow predicate rejects the announcement's
peer, `handleAnnounce` (hence `Direct`) returns nil — not `ErrClosed` — with
the receiver state returned exactly unchanged, for every receiver state:
the check runs before the closed check and outside the state lock, so neither
the closed flag, nor the held mutex, nor the dedup set affects or is affected
by the call. -/
theorem claim10_reject_before_closed_check (r : Receiver) (amsg : Announce)
    (f : PeerID → Bool) (resend : Bool) (sendErr : Option GoErr)
    (deliver : DeliverOutcome)
    (hf : r.allowPeer = some f) (hreject : f amsg.PeerID = false) :
    r.handleAnnounce amsg resend sendErr deliver =
      some { err := none, state := r, delivered := none, republished := none,
             logs := [LogEvent.ignoredAnnouncement GoErr.sourceNotAllowed] } := by
  unfold Receiver.handleAnnounce Receiver.announceCheck
  simp [allows, hf, hreject]

/-- Concrete receiver for the C10 witness: already closed, mutex held, peer
rejected by the callback. -/
def rClosedRejecting : Receiver :=
  { rOpen with allowPeer := some (fun _ => false), closed := true, lockHeld := true,
               announceCache := ⟨announceCacheSize, ["cidSeen"]⟩ }

/-- C10 witness: on a closed receiver with the mutex held, a rejected peer's
announcement still returns nil with the state unchanged. -/
theorem claim10_reject_before_closed_check_witness :
    rClosedRejecting.handleAnnounce ⟨"cidSeen", "peerBad", []⟩ true none .sent =
      some { err := none, state := rClosedRejecting, delivered := none,
             republished := none,
             logs := [LogEvent.ignoredAnnouncement GoErr.sourceNotAllowed] } :=
  claim10_reject_before_closed_check rClosedRejecting ⟨"cidSeen", "peerBad", []⟩
    (fun _ => false) true none .sent rfl rfl

/-- The first component of `update` is exactly membership before the call. -/
lemma stringLRU.update_fst (l : stringLRU) (k : String) :
    (l.update k).1 = l.memK k := by
  unfold stringLRU.update stringLRU.memK
  split <;> simp_all

/-- On a present key, `update` promotes it to most-recently-used. -/
lemma stringLRU.update_snd_mem (l : stringLRU) (k : String) (h : l.memK k = true) :
    (l.update k).2 = ⟨l.cap, k :: l.elems.filter (· != k)⟩ := by
  unfold stringLRU.update
  unfold stringLRU.memK at h
  simp at h
  simp [h]

/-- A successful admission (`announceCheck` returning nil) implies: the peer
was allowed, the mutex was free, the receiver open, the CID unseen, and the
post state is the pre state with the CID inserted into the cache. -/
lemma announceCheck_pass (r : Receiver) (amsg : Announce) (r1 : Receiver)
    (h : r.announceCheck amsg = some (none, r1)) :
    allows r.allowPeer amsg.PeerID = true ∧ r.lockHeld = false ∧ r.closed = false ∧
    r.announceCache.memK (cidString amsg.Cid) = false ∧
    r1 = { r with announceCache := (r.announceCache.update (cidString amsg.Cid)).2 } := by
  unfold Receiver.announceCheck at h
  split at h
  next hg => exact absurd h (by simp)
  next hg =>
    split at h
    next hl => exact absurd h (by simp)
    next hl =>
      split at h
      next hc => exact absurd h (by simp)
      next hc =>
        split at h
        next hs => exact absurd h (by simp)
        next hs =>
          simp only [Option.some.injEq, Prod.mk.injEq, true_and] at h
          refine ⟨by simpa using hg, by simpa using hl, by simpa using hc, ?_, h.symm⟩
          rw [← stringLRU.update_fst]
          simpa using hs

/-- C7: a republish failure is not fatal to delivery: for every admitted
announcement handled with `resend = true` and a failing sender, the error is
logged, the (filtered) announcement is still republished and still sent to the
output channel, and the returned error is nil for an accepted delivery —
`ErrClosed` or the context error can arise only from the delivery select
itself. -/
theorem claim7_republish_failure_not_fatal (r r1 : Receiver) (amsg : Announce)
    (e : GoErr) (deliver : DeliverOutcome)
    (hac : r.announceCheck amsg = some (none, r1)) :
    r.handleAnnounce amsg true (some e) deliver = some
      { err := match deliver with
               | .sent => none
               | .doneSignal => some GoErr.errClosed
               | .ctxDone => some GoErr.ctxErr,
        state := r1,
        delivered := match deliver with
                     | .sent => some (filteredAnnounce r1.filterIPs amsg)
                     | .doneSignal => none
                     | .ctxDone => none,
        republished := some (republishMessage (filteredAnnounce r1.filterIPs amsg)),
        logs := [LogEvent.republishFailed e] } := by
  unfold Receiver.handleAnnounce
  rw [hac]
  cases deliver <;> simp [filteredAnnounce]

/-- State of `rOpen` after admitting the CID used by the C7 witness. -/
def r1W7 : Receiver := { rOpen with announceCache := ⟨announceCacheSize, ["cidW7"]⟩ }

/-- C7 witness: a concrete admitted announcement with a failing republish is
still delivered with a nil result and the failure logged. -/
theorem claim7_republish_failure_not_fatal_witness :
    rOpen.handleAnnounce ⟨"cidW7", "peerW7", []⟩ true (some (GoErr.external 3)) .sent =
      some { err := none, state := r1W7,
             delivered := some ⟨"cidW7", "peerW7", []⟩,
             republished := some { Cid := "cidW7", Addrs := [], OrigPeer := "peerW7" },
             logs := [LogEvent.republishFailed (GoErr.external 3)] } :=
  claim7_republish_failure_not_fatal rOpen r1W7 ⟨"cidW7", "peerW7", []⟩
    (GoErr.external 3) .sent rfl

/-- Everything surviving the public-address filter is a nil entry or public. -/
lemma filterPublic_all (l : List Multiaddr) : (FilterPublic l).all maKeep = true := by
  simp only [FilterPublic, List.all_eq_true]
  intro a ha
  exact (List.mem_filter.mp ha).2

/-- C5: with `filterIPs` enabled, the announcement delivered for an admitted
message carries exactly the public-addresses-only filtering of the incoming
address list — delivered even when empty after filtering — and every delivered
address entry is a nil entry or public. -/
theorem claim5_filter_public (r r1 : Receiver) (amsg : Announce) (resend : Bool)
    (sendErr : Option GoErr) (deliver : DeliverOutcome)
    (hfips : r.filterIPs = true)
    (hac : r.announceCheck amsg = some (none, r1)) :
    (r.handleAnnounce amsg resend sendErr deliver).map HandleOut.delivered =
      some (if deliver = .sent then some { amsg with Addrs := FilterPublic amsg.Addrs } else none)
    ∧ (FilterPublic amsg.Addrs).all maKeep = true := by
  refine ⟨?_, filterPublic_all amsg.Addrs⟩
  obtain ⟨-, -, -, -, hr1⟩ := announceCheck_pass r amsg r1 hac
  unfold Receiver.handleAnnounce
  rw [hac]
  have h1 : r1.filterIPs = true := by rw [hr1]; simpa using hfips
  cases deliver <;> simp [h1]

/-- Receiver with IP filtering enabled, used by the C5 witness. -/
def rFilter : Receiver := { rOpen with filterIPs := true }

/-- State of `rFilter` after admitting the CID used by the C5 witness. -/
def r1W5 : Receiver := { rFilter with announceCache := ⟨announceCacheSize, ["cidW5"]⟩ }

/-- C5 witness: a mixed address list (non-public, public, nil entry) is
delivered with exactly the non-public entry removed. -/
theorem claim5_filter_public_witness :
    (rFilter.handleAnnounce
        ⟨"cidW5", "peerW5", [.addr false "ip4-127-0-0-1", .addr true "ip4-8-8-8-8", .nilEntry]⟩
        false none .sent).map HandleOut.delivered =
      some (some ⟨"cidW5", "peerW5", [.addr true "ip4-8-8-8-8", .nilEntry]⟩)
    ∧ (FilterPublic [.addr false "ip4-127-0-0-1", .addr true "ip4-8-8-8-8", .nilEntry]).all maKeep = true :=
  claim5_filter_public rFilter r1W5
    ⟨"cidW5", "peerW5", [.addr false "ip4-127-0-0-1", .addr true "ip4-8-8-8-8", .nilEntry]⟩
    false none .sent rfl rfl

/-- C3: an announcement whose CID string is already in the dedup set is
dropped silently by the pipeline: `handleAnnounce` returns nil, delivers and
republishes nothing, logs the drop, and the duplicate CID is promoted to
most-recently-used in the cache — so a second `Direct` with an already
delivered CID produces no second delivery. -/
theorem claim3_duplicate_drop (r : Receiver) (amsg : Announce) (resend : Bool)
    (sendErr : Option GoErr) (deliver : DeliverOutcome)
    (hallow : allows r.allowPeer amsg.PeerID = true)
    (hlock : r.lockHeld = false) (hopen : r.closed = false)
    (hdup : r.announceCache.memK (cidString amsg.Cid) = true) :
    r.handleAnnounce amsg resend sendErr deliver =
      some { err := none,
             state := { r with announceCache :=
               ⟨r.announceCache.cap,
                cidString amsg.Cid :: r.announceCache.elems.filter (· != cidString amsg.Cid)⟩ },
             delivered := none, republished := none,
             logs := [LogEvent.ignoredAnnouncement GoErr.alreadySeenCid] } := by
  have h1 : (r.announceCache.update (cidString amsg.Cid)).1 = true := by
    rw [stringLRU.update_fst]; exact hdup
  have h2 := stringLRU.update_snd_mem r.announceCache (cidString amsg.Cid) hdup
  unfold Receiver.handleAnnounce Receiver.announceCheck
  simp [hallow, hlock, hopen, h1, h2]

/-- Receiver whose dedup cache already holds the witness CID (least recently
used position), as after an earlier accepted announcement. -/
def rDup : Receiver := { rOpen with announceCache := ⟨announceCacheSize, ["cidB", "cidA"]⟩ }

/-- C3 witness: re-announcing the cached CID is dropped with a nil result, no
delivery, and the CID promoted to the most-recently-used position. -/
theorem claim3_duplicate_drop_witness :
    rDup.handleAnnounce ⟨"cidA", "peerW3", []⟩ false none .sent =
      some { err := none,
             state := { rDup with announceCache := ⟨announceCacheSize, ["cidA", "cidB"]⟩ },
             delivered := none, republished := none,
             logs := [LogEvent.ignoredAnnouncement GoErr.alreadySeenCid] } :=
  claim3_duplicate_drop rDup ⟨"cidA", "peerW3", []⟩ false none .sent
    rfl rfl rfl (by decide)

/-- Removing a key from the LRU set leaves a set not containing it. -/
lemma stringLRU.memK_remove (l : stringLRU) (k : String) :
    (l.remove k).memK k = false := by
  unfold stringLRU.remove stringLRU.memK
  simp

/-- C6: for a CID already accepted into the dedup set, re-announcing it yields
no delivery; `UncacheCid` on that CID followed by the same re-announcement
yields a delivery of the (possibly filtered) announcement. -/
theorem claim6_uncache_redelivery (r : Receiver) (amsg : Announce) (resend : Bool)
    (sendErr : Option GoErr)
    (hallow : allows r.allowPeer amsg.PeerID = true)
    (hlock : r.lockHeld = false) (hopen : r.closed = false)
    (hdup : r.announceCache.memK (cidString amsg.Cid) = true) :
    (r.handleAnnounce amsg resend sendErr .sent).map HandleOut.delivered = some none
    ∧ ((r.UncacheCid amsg.Cid).bind
        (fun r2 => r2.handleAnnounce amsg resend sendErr .sent)).map HandleOut.delivered
      = some (some (filteredAnnounce r.filterIPs amsg)) := by
  constructor
  · have h1 : (r.announceCache.update (cidString amsg.Cid)).1 = true := by
      rw [stringLRU.update_fst]; exact hdup
    unfold Receiver.handleAnnounce Receiver.announceCheck
    simp [hallow, hlock, hopen, h1]
  · have hrm : (r.announceCache.remove (cidString amsg.Cid)).memK (cidString amsg.Cid) = false :=
      stringLRU.memK_remove _ _
    unfold Receiver.UncacheCid Receiver.handleAnnounce Receiver.announceCheck
    have h1 : ((r.announceCache.remove (cidString amsg.Cid)).update (cidString amsg.Cid)).1 = false := by
      rw [stringLRU.update_fst]; exact hrm
    simp [hlock, hallow, hopen, h1, filteredAnnounce]

/-- C6 witness: on the concrete cached CID, re-announcing is not delivered,
while `UncacheCid` followed by the same re-announcement is delivered. -/
theorem claim6_uncache_redelivery_witness :
    (rDup.handleAnnounce ⟨"cidA", "peerW6", []⟩ false none .sent).map HandleOut.delivered = some none
    ∧ ((rDup.UncacheCid "cidA").bind
        (fun r2 => r2.handleAnnounce ⟨"cidA", "peerW6", []⟩ false none .sent)).map HandleOut.delivered
      = some (some ⟨"cidA", "peerW6", []⟩) :=
  claim6_uncache_redelivery rDup ⟨"cidA", "peerW6", []⟩ false none
    rfl rfl rfl (by decide)

/-- State after a first `Close` of the fresh open receiver `rOpen`. -/
def closeOnce : Receiver := (rOpen.Close none none).stateOr rOpen

/-- State after a second `Close` call on the already-closed receiver. -/
def closeTwice : Receiver := (closeOnce.Close none none).stateOr closeOnce

/-- C2 evidence: a second `Close` does return nil, but it is not a no-op — the
early return in the source never releases `announceMutex`, so the second call
leaves the state lock held, and every subsequent `Close`, `UncacheCid`, or
admission check (`Direct`) blocks forever instead of terminating. -/
theorem claim2_close_not_idempotent :
    (rOpen.Close none none).errOf = some none
    ∧ closeOnce.closed = true ∧ closeOnce.lockHeld = false
    ∧ (closeOnce.Close none none).errOf = some none
    ∧ closeTwice.lockHeld = true
    ∧ closeTwice.Close none none = CloseOut.blocked
    ∧ closeTwice.UncacheCid "cidA" = none
    ∧ closeTwice.announceCheck ⟨"cidA", "peerW2", []⟩ = none :=
  ⟨rfl, rfl, rfl, rfl, rfl, rfl, rfl, rfl⟩

/-- Host id of the receiver in the C1 scenario. -/
def selfHost : PeerID := "peerSelf"

/-- A republished gossip message whose `OrigPeer` equals this host's id but
whose transport-level `From` decodes to a different peer. -/
def echoedRelayMsg : WireMsg :=
  { fromPeer := some "peerRelay",
    body := some { Cid := "cidEcho", Addrs := [], OrigPeer := "peerSelf" } }

/-- Receiver whose host id is `selfHost`. -/
def rSelf : Receiver := { rOpen with hostID := selfHost }

/-- C1 counterexample: a gossip message with `OrigPeer` non-empty and equal to
this receiver's own host id, arriving with a transport-level `From` naming a
different peer, is not dropped by the watcher: it is handed to the pipeline as
an announcement whose `PeerID` is this host's own id, and a fresh open
receiver delivers exactly that announcement to the output channel. -/
theorem claim1_counterexample :
    rSelf.hostID = selfHost
    ∧ (echoedRelayMsg.body.map Message.OrigPeer) = some (peerString selfHost)
    ∧ echoedRelayMsg.fromPeer ≠ some selfHost
    ∧ watchProcessMsg rSelf.hostID echoedRelayMsg =
        WatchStep.handled ⟨"cidEcho", selfHost, []⟩
    ∧ (rSelf.handleAnnounce ⟨"cidEcho", selfHost, []⟩ false none .sent).map HandleOut.delivered
      = some (some ⟨"cidEcho", selfHost, []⟩) :=
  ⟨rfl, rfl, by decide, by decide, rfl⟩

/-- C1 amended: for a decodable republished message (`OrigPeer` non-empty),
the watcher drops it exactly when the transport-level `From` peer equals this
receiver's own host id — regardless of the `OrigPeer` value; otherwise it
processes the message with the decoded `OrigPeer` as effective origin. -/
theorem claim1_amended_from_self_drop (hostID : PeerID) (msg : WireMsg) (src : PeerID)
    (m : Message) (addrs : List Multiaddr)
    (hfrom : msg.fromPeer = some src) (hbody : msg.body = some m)
    (horig : m.OrigPeer ≠ "")
    (haddrs : (if m.Addrs.isEmpty then some [] else m.getAddrs) = some addrs) :
    watchProcessMsg hostID msg =
      if src = hostID then WatchStep.skip
      else WatchStep.handled { Cid := m.Cid, PeerID := m.OrigPeer, Addrs := addrs } := by
  unfold watchProcessMsg peerDecode
  rw [hfrom, hbody]
  dsimp only
  rw [haddrs]
  simp [horig]

/-- C1 amended witness: a republished message relayed by this host itself
(`From = self`) is dropped even though its `OrigPeer` names another peer. -/
theorem claim1_amended_from_self_drop_witness :
    watchProcessMsg selfHost
      { fromPeer := some selfHost,
        body := some { Cid := "cidEcho2", Addrs := [], OrigPeer := "peerOther" } }
      = WatchStep.skip := by
  have h := claim1_amended_from_self_drop selfHost
    { fromPeer := some selfHost,
      body := some { Cid := "cidEcho2", Addrs := [], OrigPeer := "peerOther" } }
    selfHost { Cid := "cidEcho2", Addrs := [], OrigPeer := "peerOther" } []
    rfl rfl (by decide) rfl
  simpa using h

/-- C8: constructing with a non-nil host, no pre-supplied topic and an empty
topic name succeeds with no subscription, yet still starts the background
watcher, whose first subscription read dereferences the nil subscription
handle. -/
theorem claim8_watch_nil_subscription (hostID : PeerID) (ap : Option (PeerID → Bool))
    (fips rs : Bool) (mte se sne : Option GoErr) :
    (NewReceiver true hostID "" false ap fips rs mte se sne).err = none
    ∧ (NewReceiver true hostID "" false ap fips rs mte se sne).watcherStarted = true
    ∧ ((NewReceiver true hostID "" false ap fips rs mte se sne).res).map Receiver.subPresent
      = some false
    ∧ ((NewReceiver true hostID "" false ap fips rs mte se sne).res).map Receiver.watchFirst
      = some WatchFirstAction.nilDeref := by
  unfold NewReceiver
  simp [Receiver.watchFirst]

/-- C9: when the constructor created and joined the topic itself and the
sender construction fails, the error is returned without running the recorded
topic-scope cancellation (the topic leaks) — while the subscription-failure
path does run it before returning. -/
theorem claim9_sender_failure_skips_cancel (hostID : PeerID) (tn : String)
    (ap : Option (PeerID → Bool)) (fips rs : Bool) (e e' : GoErr) (sndA : Option GoErr)
    (htn : tn ≠ "") :
    (NewReceiver true hostID tn false ap fips rs none none (some e)).err = some e
    ∧ (NewReceiver true hostID tn false ap fips rs none none (some e)).res = none
    ∧ (NewReceiver true hostID tn false ap fips rs none none (some e)).topicCreatedHere = true
    ∧ (NewReceiver true hostID tn false ap fips rs none none (some e)).cancelPubsubRun = false
    ∧ (NewReceiver true hostID tn false ap fips rs none (some e') sndA).err = some e'
    ∧ (NewReceiver true hostID tn false ap fips rs none (some e') sndA).topicCreatedHere = true
    ∧ (NewReceiver true hostID tn false ap fips rs none (some e') sndA).cancelPubsubRun = true := by
  have h : (tn != "") = true := bne_iff_ne.mpr htn
  unfold NewReceiver
  simp [h]

/-- C9 witness: the two failure paths evaluated on a concrete topic name. -/
theorem claim9_sender_failure_skips_cancel_witness :
    (NewReceiver true "hostW9" "topicX" false none false false none none (some (GoErr.external 1))).err
      = some (GoErr.external 1)
    ∧ (NewReceiver true "hostW9" "topicX" false none false false none none (some (GoErr.external 1))).res = none
    ∧ (NewReceiver true "hostW9" "topicX" false none false false none none (some (GoErr.external 1))).topicCreatedHere = true
    ∧ (NewReceiver true "hostW9" "topicX" false none false false none none (some (GoErr.external 1))).cancelPubsubRun = false
    ∧ (NewReceiver true "hostW9" "topicX" false none false false none (some (GoErr.external 2)) none).err
      = some (GoErr.external 2)
    ∧ (NewReceiver true "hostW9" "topicX" false none false false none (some (GoErr.external 2)) none).topicCreatedHere = true
    ∧ (NewReceiver true "hostW9" "topicX" false none false false none (some (GoErr.external 2)) none).cancelPubsubRun = true :=
  claim9_sender_failure_skips_cancel "hostW9" "topicX" none false false
    (GoErr.external 1) (GoErr.external 2) none (by decide)
